import Mathlib

/-!
Verification of the WhatsApp moderation pipeline (server side).

The definitions below are a shallow embedding of the JavaScript sources:
  - `src/server/routes/webhook.js` — `processTextMessage`, `processAudioMessage`,
    `processMediaMessage`, `processIncomingMessage`;
  - `src/server/services/hateSpeechDetection.js` — `detectHateSpeech`;
  - `src/server/services/contentModeration.js` — `moderateImage`,
    `moderateVideo`, `pollVideoResults`, `getConfidenceScore`;
  - the mongoose `messageSchema` (unique index on `whatsappMessageId`) and
    `src/server/models/NewWord.js` (`markAsHateSpeech`, `rejectWord`,
    `ignoreWord`) together with the `review_word` socket handler of
    `src/server/socket/handlers.js`.

External calls (axios requests, media downloads, speech transcription) are
modelled by explicit parameters carrying the call's outcome; confidences are
rationals; JavaScript string operations are modelled on lists of characters.
-/

namespace Moderation

/-- JavaScript `String.prototype.includes` on character lists: `strContainsList
s sub = true` iff `sub` occurs as a contiguous substring of `s`. -/
def strContainsList (s sub : List Char) : Bool :=
  match s with
  | [] => sub.isEmpty
  | _ :: rest => sub.isPrefixOf s || strContainsList rest sub

/-- `String.prototype.toLowerCase`, character by character. -/
def lowerChars (s : String) : List Char :=
  s.data.map Char.toLower

/-- `text.toLowerCase().includes(word.toLowerCase())` from
`processTextMessage` (webhook.js lines 120-122 and 134-135). -/
def jsIncludesLower (text word : String) : Bool :=
  strContainsList (lowerChars text) (lowerChars word)

/-- `user.moderationSettings` (User model, part_002) restricted to the fields
the pipeline reads. -/
structure ModerationSettings where
  hateSpeechEnabled : Bool
  nudityEnabled : Bool
  violenceEnabled : Bool
  autoBlock : Bool
  customBlockedWords : List String
  customAllowedWords : List String
deriving DecidableEq

/-- Moderation verdict status (`messageSchema.moderation.status` enum). -/
inductive Status
  | pending
  | approved
  | blocked
  | error
deriving DecidableEq

/-- The `reason` strings the webhook pipeline actually writes. -/
inductive Reason
  | custom_word
  | hate_speech
  | nudity
  | violence
  | explicit_content
  | hate_speech_detection_failed
  | audio_download_failed
  | transcription_failed
  | media_download_failed
  | media_moderation_failed
deriving DecidableEq

/-- The `hateSpeech` signal recorded on a moderation result. -/
structure HateSignal where
  detected : Bool
  confidence : ℚ
  category : Option String
deriving DecidableEq

/-- One per-category media signal (`{detected, confidence, category}` as built
by `moderateImage`; `pollVideoResults` omits `category`, modelled as `none`). -/
structure CatSignal where
  detected : Bool
  confidence : ℚ
  category : Option String
deriving DecidableEq

/-- The `moderation` object returned by the content-moderation service. -/
structure MediaModeration where
  nudity : CatSignal
  violence : CatSignal
  explicit : CatSignal
deriving DecidableEq

/-- Transcription attached to an audio message. -/
structure TranscriptionRec where
  text : String
  confidence : ℚ
  language : String
deriving DecidableEq

/-- The moderation-result object the per-kind processors return and the
pipeline stores in `message.moderation`. -/
structure ModerationResult where
  status : Status
  reason : Option Reason
  hateSpeech : Option HateSignal
  contentModeration : Option MediaModeration
  transcription : Option TranscriptionRec
deriving DecidableEq

/-- A result carrying only a status and a reason. -/
def simpleResult (st : Status) (r : Option Reason) : ModerationResult :=
  { status := st, reason := r, hateSpeech := none,
    contentModeration := none, transcription := none }

/-! ## Hate-speech detection service (`detectHateSpeech`, part_003) -/

/-- The label→category table of `detectHateSpeech`. -/
def categoryOfLabel (label : String) : String :=
  if label = "toxic" then "hate_speech"
  else if label = "severe_toxic" then "hate_speech"
  else if label = "obscene" then "explicit_content"
  else if label = "threat" then "violence"
  else if label = "insult" then "hate_speech"
  else if label = "identity_hate" then "hate_speech"
  else "other"

/-- One entry of `detectedCategories`. -/
structure DetectedCat where
  category : String
  label : String
  confidence : ℚ
deriving DecidableEq

/-- Accumulator state of the `results.forEach` loop in `detectHateSpeech`:
the `detectedCategories` list, `maxConfidence`, and `primaryCategory`. -/
structure HSAcc where
  cats : List DetectedCat
  maxConfidence : ℚ
  primaryCategory : Option String
deriving DecidableEq

/-- One iteration of the `forEach` body: push the category if its score
exceeds 0.5 and update the running maximum. -/
def hsStep (acc : HSAcc) (r : String × ℚ) : HSAcc :=
  let category := categoryOfLabel r.1
  if r.2 > mkRat 1 2 then
    let cats := acc.cats ++ [{ category := category, label := r.1, confidence := r.2 }]
    if r.2 > acc.maxConfidence then
      { cats := cats, maxConfidence := r.2, primaryCategory := some category }
    else
      { cats := cats, maxConfidence := acc.maxConfidence,
        primaryCategory := acc.primaryCategory }
  else acc

/-- Outcome of a successful `detectHateSpeech` call. -/
structure HSOutcome where
  detected : Bool
  confidence : ℚ
  primaryCategory : Option String
  categories : List DetectedCat
deriving DecidableEq

/-- `detectHateSpeech` (success path) computed from the classifier's raw
`(label, score)` pairs. -/
def detectHateSpeech (results : List (String × ℚ)) : HSOutcome :=
  let acc := results.foldl hsStep { cats := [], maxConfidence := mkRat 0 1, primaryCategory := none }
  { detected := !acc.cats.isEmpty, confidence := acc.maxConfidence,
    primaryCategory := acc.primaryCategory, categories := acc.cats }

/-! ## Text pipeline (`processTextMessage`, webhook.js lines 115-165) -/

/-- `customBlockedWords.some(word => text.toLowerCase().includes(word.toLowerCase()))`. -/
def hasBlockedWord (settings : ModerationSettings) (text : String) : Bool :=
  settings.customBlockedWords.any fun w => jsIncludesLower text w

/-- `customAllowedWords.some(word => text.toLowerCase().includes(word.toLowerCase()))`. -/
def hasAllowedWord (settings : ModerationSettings) (text : String) : Bool :=
  settings.customAllowedWords.any fun w => jsIncludesLower text w

/-- `processTextMessage`.  `classifier` is the raw response of the
hate-speech service: `none` models a failed call (`success: false`),
`some results` a successful call with the given label/score pairs.  The
source checks the custom blocked words first, then the allowed words, then
invokes the classifier. -/
def processTextMessage (settings : ModerationSettings) (text : String)
    (classifier : Option (List (String × ℚ))) : ModerationResult :=
  if hasBlockedWord settings text then
    { status := .blocked, reason := some .custom_word,
      hateSpeech := some { detected := true, confidence := mkRat 1 1, category := some "custom" },
      contentModeration := none, transcription := none }
  else if hasAllowedWord settings text then
    simpleResult .approved none
  else
    match classifier with
    | none => simpleResult .error (some .hate_speech_detection_failed)
    | some results =>
      let hs := detectHateSpeech results
      if hs.detected && settings.hateSpeechEnabled then
        { status := .blocked, reason := some .hate_speech,
          hateSpeech := some { detected := true, confidence := hs.confidence,
                               category := hs.primaryCategory },
          contentModeration := none, transcription := none }
      else
        simpleResult .approved none

/-! ## Audio pipeline (`processAudioMessage`, webhook.js lines 168-207) -/

/-- Environment outcome for an audio message: the media download can fail,
the transcription can fail, or a transcription is produced.  A successful
transcription carries the transcribed text, the service's optional confidence
and language, and the raw response of the subsequent hate-speech call. -/
inductive AudioStep
  | downloadFailed
  | transcriptionFailed
  | transcribed (text : String) (confidence : Option ℚ) (language : Option String)
      (classifier : Option (List (String × ℚ)))
deriving DecidableEq

/-- `processAudioMessage`.  On download or transcription failure an `error`
result is returned before any text policy runs.  On success the transcribed
text goes through `processTextMessage`; a blocked text verdict is returned
with the transcription attached, any other text verdict yields `approved`. -/
def processAudioMessage (settings : ModerationSettings) (step : AudioStep) :
    ModerationResult :=
  match step with
  | .downloadFailed => simpleResult .error (some .audio_download_failed)
  | .transcriptionFailed => simpleResult .error (some .transcription_failed)
  | .transcribed text conf lang classifier =>
    let tr : TranscriptionRec :=
      { text := text, confidence := conf.getD (mkRat 8 10), language := lang.getD "en" }
    let textModeration := processTextMessage settings text classifier
    if textModeration.status = .blocked then
      { textModeration with transcription := some tr }
    else
      { status := .approved, reason := none, hateSpeech := none,
        contentModeration := none, transcription := some tr }

/-! ## Media classification service (`contentModeration.js`) -/

/-- Google SafeSearch likelihood levels (`UNKNOWN` stands for any level not
in the service's score table, mapped to 0.5 by the `|| 0.5` fallback). -/
inductive Likelihood
  | VERY_LIKELY
  | LIKELY
  | POSSIBLE
  | UNLIKELY
  | VERY_UNLIKELY
  | UNKNOWN
deriving DecidableEq

/-- `getConfidenceScore` (contentModeration.js lines 121-130). -/
def getConfidenceScore : Likelihood → ℚ
  | .VERY_LIKELY => mkRat 9 10
  | .LIKELY => mkRat 7 10
  | .POSSIBLE => mkRat 1 2
  | .UNLIKELY => mkRat 3 10
  | .VERY_UNLIKELY => mkRat 1 10
  | .UNKNOWN => mkRat 1 2

/-- `level === 'LIKELY' || level === 'VERY_LIKELY'`, the adapter's collapse
of the likelihood scale to the `detected` boolean. -/
def likelyDetected (l : Likelihood) : Bool :=
  l = .LIKELY || l = .VERY_LIKELY

/-- The `safeSearchAnnotation` of a successful Vision API response. -/
structure SafeSearch where
  adult : Likelihood
  violence : Likelihood
  racy : Likelihood
deriving DecidableEq

/-- `moderateImage` (success path): builds the per-category signals from the
SafeSearch likelihoods (contentModeration.js lines 37-53). -/
def moderateImage (ss : SafeSearch) : MediaModeration :=
  { nudity := { detected := likelyDetected ss.adult,
                confidence := getConfidenceScore ss.adult, category := some "adult" },
    violence := { detected := likelyDetected ss.violence,
                  confidence := getConfidenceScore ss.violence, category := some "violence" },
    explicit := { detected := likelyDetected ss.racy,
                  confidence := getConfidenceScore ss.racy, category := some "racy" } }

/-- `pollVideoResults` (contentModeration.js lines 132-143): a fixed
all-clear result — every category not detected with confidence 0.1. -/
def pollVideoResults : MediaModeration :=
  { nudity := { detected := false, confidence := mkRat 1 10, category := none },
    violence := { detected := false, confidence := mkRat 1 10, category := none },
    explicit := { detected := false, confidence := mkRat 1 10, category := none } }

/-- `moderateVideo`: the Azure job submission either throws (`success:
false`, modelled by `submitOk = false`) or succeeds, in which case the
polled result is always `pollVideoResults`. -/
def moderateVideo (submitOk : Bool) : Option MediaModeration :=
  if submitOk then some pollVideoResults else none

/-! ## Media pipeline (`processMediaMessage`, webhook.js lines 210-265) -/

/-- Environment outcome for an image/video message: download failure,
classification failure (`success: false` from `moderateMedia`), or a
successful classification result. -/
inductive MediaStep
  | downloadFailed
  | classifyFailed
  | classified (m : MediaModeration)
deriving DecidableEq

/-- The `shouldBlock`/`reason` accumulation of `processMediaMessage` (lines
230-249): three successive `if` statements, each overwriting `reason`. -/
def mediaVerdict (settings : ModerationSettings) (m : MediaModeration) :
    ModerationResult :=
  let sb0 : Bool := false
  let r0 : Option Reason := none
  let p1 := if m.nudity.detected && settings.nudityEnabled
            then (true, some Reason.nudity) else (sb0, r0)
  let p2 := if m.violence.detected && settings.violenceEnabled
            then (true, some Reason.violence) else p1
  let p3 := if m.explicit.detected
            then (true, some Reason.explicit_content) else p2
  if p3.1 then
    { status := .blocked, reason := p3.2, hateSpeech := none,
      contentModeration := some m, transcription := none }
  else
    { status := .approved, reason := none, hateSpeech := none,
      contentModeration := some m, transcription := none }

/-- `processMediaMessage`. -/
def processMediaMessage (settings : ModerationSettings) (step : MediaStep) :
    ModerationResult :=
  match step with
  | .downloadFailed => simpleResult .error (some .media_download_failed)
  | .classifyFailed => simpleResult .error (some .media_moderation_failed)
  | .classified m => mediaVerdict settings m

/-- The environment outcome for a video message assembled from the download
outcome and the Azure submission outcome, as `processMediaMessage` composed
with `moderateMedia(…, 'video')` sees it. -/
def videoStep (downloadOk submitOk : Bool) : MediaStep :=
  if downloadOk then
    match moderateVideo submitOk with
    | some m => .classified m
    | none => .classifyFailed
  else .downloadFailed

/-! ## Inbound message pipeline and store
(`processIncomingMessage`, webhook.js lines 59-112; `messageSchema` with its
unique index on `whatsappMessageId`) -/

/-- One stored message row, restricted to the fields the pipeline writes. -/
structure StoredMessage where
  whatsappMessageId : String
  moderation : ModerationResult
  metadataStatus : String
  responseSent : Bool
deriving DecidableEq

/-- The message collection. -/
structure Store where
  messages : List StoredMessage
deriving DecidableEq

/-- Whether a row with the given provider message id exists. -/
def Store.hasId (st : Store) (id : String) : Bool :=
  st.messages.any fun m => m.whatsappMessageId = id

/-- Insert of a fresh document: the unique index on `whatsappMessageId`
(messageSchema, `unique: true`) makes the save of a duplicate id fail with a
duplicate-key error instead of inserting a second row. -/
def Store.saveNew (st : Store) (m : StoredMessage) : Option Store :=
  if st.hasId m.whatsappMessageId then none
  else some { messages := st.messages ++ [m] }

/-- In-place update of `metadata.status` to `'delivered'`
(`handleApprovedMessage`). -/
def Store.setDelivered (st : Store) (id : String) : Store :=
  { messages := st.messages.map fun m =>
      if m.whatsappMessageId = id then { m with metadataStatus := "delivered" } else m }

/-- In-place record of a successful auto-reply (`handleBlockedMessage`). -/
def Store.setResponseSent (st : Store) (id : String) : Store :=
  { messages := st.messages.map fun m =>
      if m.whatsappMessageId = id then { m with responseSent := true } else m }

/-- Kind-specific environment input for one inbound message, as the
`messageData.type` dispatch of `processIncomingMessage` (lines 85-94) sees
it.  `document` (and any other type) takes no classifier input: the default
`{ status: 'approved' }` result is kept untouched. -/
inductive KindInput
  | text (body : String) (classifier : Option (List (String × ℚ)))
  | audio (step : AudioStep)
  | image (step : MediaStep)
  | video (downloadOk submitOk : Bool)
  | document
deriving DecidableEq

/-- The per-kind moderation result (lines 85-94). -/
def moderationFor (settings : ModerationSettings) : KindInput → ModerationResult
  | .text body classifier => processTextMessage settings body classifier
  | .audio step => processAudioMessage settings step
  | .image step => processMediaMessage settings step
  | .video d sub => processMediaMessage settings (videoStep d sub)
  | .document => simpleResult .approved none

/-- Result of one `processIncomingMessage` run: the store afterwards and
whether an auto-reply to the sender was attempted
(`whatsappService.sendModerationResponse` invoked). -/
structure PipelineOutcome where
  store : Store
  autoReplyAttempted : Bool
deriving DecidableEq

/-- `processIncomingMessage` for a resolved owner.  The message row is built
and saved with the computed verdict; a duplicate-key failure of the save is
caught by the surrounding `try/catch` (lines 109-111), so nothing further
happens.  On `blocked`, `handleBlockedMessage` sends the auto-reply when
`autoBlock` is set (recording success when the send succeeds); on any other
status `handleApprovedMessage` marks the row delivered. -/
def processIncomingMessage (st : Store) (settings : ModerationSettings)
    (msgId : String) (input : KindInput) (sendOk : Bool) : PipelineOutcome :=
  let result := moderationFor settings input
  let row : StoredMessage :=
    { whatsappMessageId := msgId, moderation := result,
      metadataStatus := "received", responseSent := false }
  match st.saveNew row with
  | none => { store := st, autoReplyAttempted := false }
  | some st1 =>
    if result.status = .blocked then
      if settings.autoBlock then
        { store := if sendOk then st1.setResponseSent msgId else st1,
          autoReplyAttempted := true }
      else
        { store := st1, autoReplyAttempted := false }
    else
      { store := st1.setDelivered msgId, autoReplyAttempted := false }

/-! ## Candidate-term review (`NewWord.js` methods and the `review_word`
socket handler, handlers.js lines 176-213) -/

/-- `newWordSchema.status` enum. -/
inductive NWStatus
  | pending
  | approved
  | rejected
  | ignored
deriving DecidableEq

/-- A `NewWord` document restricted to the fields the review path touches.
`decisionDate` holds the abstract time of the decision (`new Date()`). -/
structure NewWordRec where
  word : String
  status : NWStatus
  markedAsHateSpeech : Bool
  decisionDate : Option Nat
  decisionReason : Option String
deriving DecidableEq

/-- `newWordSchema.methods.markAsHateSpeech` (NewWord.js lines 104-111). -/
def markAsHateSpeech (now : Nat) (reason : String) (w : NewWordRec) : NewWordRec :=
  { w with status := .approved, markedAsHateSpeech := true,
           decisionDate := some now, decisionReason := some reason }

/-- `newWordSchema.methods.rejectWord` (NewWord.js lines 124-131). -/
def rejectWord (now : Nat) (reason : String) (w : NewWordRec) : NewWordRec :=
  { w with status := .rejected, markedAsHateSpeech := false,
           decisionDate := some now, decisionReason := some reason }

/-- `newWordSchema.methods.ignoreWord` (NewWord.js lines 114-121). -/
def ignoreWord (now : Nat) (reason : String) (w : NewWordRec) : NewWordRec :=
  { w with status := .ignored, markedAsHateSpeech := false,
           decisionDate := some now, decisionReason := some reason }

/-- The review actions of the `review_word` handler's `switch`. -/
inductive ReviewAction
  | approve
  | reject
  | ignore
  | other (s : String)
deriving DecidableEq

/-- The `switch (action)` of the `review_word` handler: it applies the chosen
method directly, with no check of the word's current status. -/
def reviewWord (action : ReviewAction) (now : Nat) (reason : String)
    (w : NewWordRec) : NewWordRec :=
  match action with
  | .approve => markAsHateSpeech now reason w
  | .reject => rejectWord now reason w
  | .ignore => ignoreWord now reason w
  | .other _ => w

/-! ## Helper lemmas -/

/-- The `detectedCategories` list grows by one entry exactly when the score
exceeds 0.5, in either branch of the inner maximum update. -/
theorem hsStep_cats (acc : HSAcc) (r : String × ℚ) :
    (hsStep acc r).cats =
      if mkRat 1 2 < r.2 then
        acc.cats ++ [{ category := categoryOfLabel r.1, label := r.1, confidence := r.2 }]
      else acc.cats := by
  unfold hsStep
  by_cases h : mkRat 1 2 < r.2
  · simp only [gt_iff_lt, h, if_true]
    by_cases h2 : acc.maxConfidence < r.2 <;> simp [h2]
  · simp [h]

/-- Emptiness of the accumulated category list after the fold. -/
theorem foldl_hsStep_isEmpty (l : List (String × ℚ)) (acc : HSAcc) :
    (l.foldl hsStep acc).cats.isEmpty =
      (acc.cats.isEmpty && l.all fun r => decide (r.2 ≤ mkRat 1 2)) := by
  induction l generalizing acc with
  | nil => simp
  | cons x xs ih =>
    rw [List.foldl_cons, ih, List.all_cons]
    by_cases h : mkRat 1 2 < x.2
    · have : (hsStep acc x).cats.isEmpty = false := by
        rw [hsStep_cats]
        simp [h]
      rw [this]
      simp [not_le.mpr h]
    · have : (hsStep acc x).cats = acc.cats := by
        rw [hsStep_cats]
        simp [h]
      rw [this]
      simp [not_lt.mp h]

/-- `detectHateSpeech` reports `detected` exactly when some raw score
exceeds 0.5. -/
theorem detectHateSpeech_detected_iff (results : List (String × ℚ)) :
    (detectHateSpeech results).detected = true ↔ ∃ r ∈ results, mkRat 1 2 < r.2 := by
  unfold detectHateSpeech
  simp only [Bool.not_eq_true']
  rw [foldl_hsStep_isEmpty]
  simp [not_le]

/-- With the blocked-word test failing and the allowed-word test failing, the
text verdict on a successful classification is determined by the classifier
outcome and the `hateSpeechEnabled` toggle. -/
theorem processTextMessage_classified (settings : ModerationSettings) (text : String)
    (results : List (String × ℚ))
    (hb : hasBlockedWord settings text = false)
    (ha : hasAllowedWord settings text = false) :
    processTextMessage settings text (some results) =
      (if (detectHateSpeech results).detected && settings.hateSpeechEnabled then
        { status := .blocked, reason := some .hate_speech,
          hateSpeech := some { detected := true,
                               confidence := (detectHateSpeech results).confidence,
                               category := (detectHateSpeech results).primaryCategory },
          contentModeration := none, transcription := none }
      else simpleResult .approved none) := by
  unfold processTextMessage
  rw [hb, ha]
  simp

/-! ## Claim C1 -/

/-- C1 is false as stated: the source checks `customBlockedWords` before
`customAllowedWords` (webhook.js lines 118-140), so a text containing both a
configured allow-word ("good") and a configured block-word ("bad") is
blocked, not approved — the allow-list does not take precedence over the
block-list. -/
theorem allow_word_overridden_by_block_word_cx :
    hasAllowedWord
      { hateSpeechEnabled := true, nudityEnabled := true, violenceEnabled := true,
        autoBlock := true, customBlockedWords := ["bad"], customAllowedWords := ["good"] }
      "good bad day" = true ∧
    (processTextMessage
      { hateSpeechEnabled := true, nudityEnabled := true, violenceEnabled := true,
        autoBlock := true, customBlockedWords := ["bad"], customAllowedWords := ["good"] }
      "good bad day" (some [])).status = .blocked ∧
    (processTextMessage
      { hateSpeechEnabled := true, nudityEnabled := true, violenceEnabled := true,
        autoBlock := true, customBlockedWords := ["bad"], customAllowedWords := ["good"] }
      "good bad day" (some [])).status ≠ .approved := by
  refine ⟨by decide, by decide, by decide⟩

/-- C1 (amended): for every text message whose normalized content contains a
term of `config.allowedWords` and no term of `config.blockedWords`, the
verdict is approved regardless of the classifier output — the classifier is
not even consulted (the result is the same for every classifier outcome,
including a 1.0 hate-speech confidence). -/
theorem allow_word_without_block_word_approves (settings : ModerationSettings)
    (text : String) (classifier : Option (List (String × ℚ)))
    (hallow : hasAllowedWord settings text = true)
    (hblock : hasBlockedWord settings text = false) :
    processTextMessage settings text classifier = simpleResult .approved none := by
  unfold processTextMessage
  rw [hblock, hallow]
  simp

/-- Witness for the amended C1: text "so good" with allow-word "good", no
block-word, and a classifier reporting a 1.0 toxic score is approved. -/
theorem allow_word_without_block_word_approves_witness :
    hasAllowedWord
      { hateSpeechEnabled := true, nudityEnabled := true, violenceEnabled := true,
        autoBlock := true, customBlockedWords := ["bad"], customAllowedWords := ["good"] }
      "so good" = true ∧
    hasBlockedWord
      { hateSpeechEnabled := true, nudityEnabled := true, violenceEnabled := true,
        autoBlock := true, customBlockedWords := ["bad"], customAllowedWords := ["good"] }
      "so good" = false ∧
    processTextMessage
      { hateSpeechEnabled := true, nudityEnabled := true, violenceEnabled := true,
        autoBlock := true, customBlockedWords := ["bad"], customAllowedWords := ["good"] }
      "so good" (some [("toxic", mkRat 1 1)]) = simpleResult .approved none :=
  ⟨by decide, by decide,
    allow_word_without_block_word_approves _ _ _ (by decide) (by decide)⟩

/-! ## Claim C2 -/

/-- C2: for every text message whose normalized content contains a
`config.blockedWords` term and no `config.allowedWords` term, the verdict is
blocked with the custom-block-word reason (the string `custom_word` in the
source) and the recorded signal confidence is exactly 1.0. -/
theorem blocked_word_blocks_with_confidence_one (settings : ModerationSettings)
    (text : String) (classifier : Option (List (String × ℚ)))
    (hblock : hasBlockedWord settings text = true)
    (hallow : hasAllowedWord settings text = false) :
    (processTextMessage settings text classifier).status = .blocked ∧
    (processTextMessage settings text classifier).reason = some .custom_word ∧
    (processTextMessage settings text classifier).hateSpeech.map HateSignal.confidence
      = some 1 := by
  unfold processTextMessage
  rw [hblock]
  refine ⟨rfl, rfl, ?_⟩
  simp only [if_true, Option.map_some]
  norm_num [Rat.mkRat_eq_div]

/-- Witness for C2: text "a bad day" with block-word "bad" and allow-list
["good"] is blocked as a custom word with confidence 1. -/
theorem blocked_word_blocks_with_confidence_one_witness :
    hasBlockedWord
      { hateSpeechEnabled := true, nudityEnabled := true, violenceEnabled := true,
        autoBlock := true, customBlockedWords := ["bad"], customAllowedWords := ["good"] }
      "a bad day" = true ∧
    hasAllowedWord
      { hateSpeechEnabled := true, nudityEnabled := true, violenceEnabled := true,
        autoBlock := true, customBlockedWords := ["bad"], customAllowedWords := ["good"] }
      "a bad day" = false ∧
    ((processTextMessage
      { hateSpeechEnabled := true, nudityEnabled := true, violenceEnabled := true,
        autoBlock := true, customBlockedWords := ["bad"], customAllowedWords := ["good"] }
      "a bad day" (some [])).status = .blocked ∧
     (processTextMessage
      { hateSpeechEnabled := true, nudityEnabled := true, violenceEnabled := true,
        autoBlock := true, customBlockedWords := ["bad"], customAllowedWords := ["good"] }
      "a bad day" (some [])).reason = some .custom_word ∧
     (processTextMessage
      { hateSpeechEnabled := true, nudityEnabled := true, violenceEnabled := true,
        autoBlock := true, customBlockedWords := ["bad"], customAllowedWords := ["good"] }
      "a bad day" (some [])).hateSpeech.map HateSignal.confidence = some 1) :=
  ⟨by decide, by decide,
    blocked_word_blocks_with_confidence_one _ _ _ (by decide) (by decide)⟩

/-! ## Claim C3 -/

/-- C3 is false as stated: a hate-speech confidence of 0.6 — inside the
claimed flag-only band (0.5, 0.7] — blocks the message.  The pipeline blocks
whenever the detection service reports `detected` (any score above 0.5) and
`hateSpeechEnabled` is on; no secondary 0.7 threshold is consulted
(the 0.7 comparison exists only in the unused `messageSchema.shouldBlock`
method). -/
theorem hate_speech_mid_confidence_blocks_cx :
    (processTextMessage
      { hateSpeechEnabled := true, nudityEnabled := true, violenceEnabled := true,
        autoBlock := true, customBlockedWords := [], customAllowedWords := [] }
      "x" (some [("toxic", mkRat 3 5)])).status = .blocked ∧
    (processTextMessage
      { hateSpeechEnabled := true, nudityEnabled := true, violenceEnabled := true,
        autoBlock := true, customBlockedWords := [], customAllowedWords := [] }
      "x" (some [("toxic", mkRat 3 5)])).reason = some .hate_speech ∧
    mkRat 3 5 ≤ mkRat 7 10 := by
  refine ⟨by decide, by decide, by decide⟩

/-- C3 (amended): for every text message with no custom-word match and a
successful classification, the verdict is blocked with reason `hate_speech`
if and only if `hateSpeechEnabled = true` and the classifier reports some
category score strictly above 0.5 — there is no stricter 0.7 block
threshold. -/
theorem hate_speech_block_iff_detected (settings : ModerationSettings)
    (text : String) (results : List (String × ℚ))
    (hb : hasBlockedWord settings text = false)
    (ha : hasAllowedWord settings text = false) :
    ((processTextMessage settings text (some results)).status = .blocked ↔
      settings.hateSpeechEnabled = true ∧ ∃ r ∈ results, mkRat 1 2 < r.2) ∧
    ((processTextMessage settings text (some results)).status = .blocked →
      (processTextMessage settings text (some results)).reason = some .hate_speech) := by
  rw [processTextMessage_classified settings text results hb ha]
  by_cases hd : ((detectHateSpeech results).detected && settings.hateSpeechEnabled) = true
  · have hdet := (Bool.and_eq_true _ _).mp hd
    rw [if_pos hd]
    constructor
    · simp only [true_iff]
      exact ⟨hdet.2, (detectHateSpeech_detected_iff results).mp hdet.1⟩
    · intro _
      rfl
  · rw [if_neg hd]
    constructor
    · simp only [simpleResult]
      constructor
      · intro h
        exact absurd h (by decide)
      · rintro ⟨hen, hex⟩
        exact absurd ((Bool.and_eq_true _ _).mpr
          ⟨(detectHateSpeech_detected_iff results).mpr hex, hen⟩) hd
    · intro h
      exact absurd h (by simp [simpleResult])

/-- Witness for the amended C3: with empty custom lists and scores
\x7b toxic: 0.6 \x7d the message is blocked with reason hate_speech. -/
theorem hate_speech_block_iff_detected_witness :
    hasBlockedWord
      { hateSpeechEnabled := true, nudityEnabled := true, violenceEnabled := true,
        autoBlock := true, customBlockedWords := [], customAllowedWords := [] }
      "hello there" = false ∧
    hasAllowedWord
      { hateSpeechEnabled := true, nudityEnabled := true, violenceEnabled := true,
        autoBlock := true, customBlockedWords := [], customAllowedWords := [] }
      "hello there" = false ∧
    ((processTextMessage
      { hateSpeechEnabled := true, nudityEnabled := true, violenceEnabled := true,
        autoBlock := true, customBlockedWords := [], customAllowedWords := [] }
      "hello there" (some [("toxic", mkRat 3 5)])).status = .blocked ↔
      (true = true ∧ ∃ r ∈ [("toxic", mkRat 3 5)], mkRat 1 2 < r.2)) :=
  ⟨by decide, by decide,
    (hate_speech_block_iff_detected _ _ _ (by decide) (by decide)).1⟩

/-- Characterization of the media verdict: the three successive `if`
statements of `processMediaMessage` make the LAST qualifying category in the
source order nudity, violence, explicit own the recorded reason. -/
theorem mediaVerdict_spec (settings : ModerationSettings) (m : MediaModeration) :
    (mediaVerdict settings m).status =
      (if (m.nudity.detected && settings.nudityEnabled)
          || (m.violence.detected && settings.violenceEnabled)
          || m.explicit.detected then .blocked else .approved) ∧
    (mediaVerdict settings m).reason =
      (if m.explicit.detected then some .explicit_content
       else if m.violence.detected && settings.violenceEnabled then some .violence
       else if m.nudity.detected && settings.nudityEnabled then some .nudity
       else none) ∧
    (mediaVerdict settings m).contentModeration = some m := by
  unfold mediaVerdict
  cases hN : m.nudity.detected && settings.nudityEnabled <;>
    cases hV : m.violence.detected && settings.violenceEnabled <;>
      cases hE : m.explicit.detected <;>
        simp [hN, hV, hE]

/-- The adapter's `detected` boolean for a category is equivalent to its
reported confidence being at least 0.7 (LIKELY or VERY_LIKELY). -/
theorem likelyDetected_iff_conf (l : Likelihood) :
    likelyDetected l = true ↔ mkRat 7 10 ≤ getConfidenceScore l := by
  cases l <;> decide

/-! ## Claim C4 -/

/-- C4 is false as stated: on an image where both nudity (VERY_LIKELY) and
violence (LIKELY) qualify with both toggles enabled, the recorded reason is
`violence`, not `nudity` — each later `if` in `processMediaMessage`
overwrites `reason`, so the last qualifying category wins, not the first. -/
theorem media_reason_first_category_cx :
    ((moderateImage { adult := .VERY_LIKELY, violence := .LIKELY, racy := .UNLIKELY }).nudity.detected
        = true) ∧
    ((moderateImage { adult := .VERY_LIKELY, violence := .LIKELY, racy := .UNLIKELY }).violence.detected
        = true) ∧
    (processMediaMessage
      { hateSpeechEnabled := true, nudityEnabled := true, violenceEnabled := true,
        autoBlock := true, customBlockedWords := [], customAllowedWords := [] }
      (.classified (moderateImage
        { adult := .VERY_LIKELY, violence := .LIKELY, racy := .UNLIKELY }))).status
        = .blocked ∧
    (processMediaMessage
      { hateSpeechEnabled := true, nudityEnabled := true, violenceEnabled := true,
        autoBlock := true, customBlockedWords := [], customAllowedWords := [] }
      (.classified (moderateImage
        { adult := .VERY_LIKELY, violence := .LIKELY, racy := .UNLIKELY }))).reason
        = some .violence ∧
    (processMediaMessage
      { hateSpeechEnabled := true, nudityEnabled := true, violenceEnabled := true,
        autoBlock := true, customBlockedWords := [], customAllowedWords := [] }
      (.classified (moderateImage
        { adult := .VERY_LIKELY, violence := .LIKELY, racy := .UNLIKELY }))).reason
        ≠ some .nudity := by
  refine ⟨by decide, by decide, by decide, by decide, by decide⟩

/-- C4 (amended): when more than one category qualifies, the recorded
blocked reason is that of the LAST qualifying category in the fixed source
order nudity, violence, explicit (explicit over violence over nudity); the
full per-category signal object is still recorded for audit. -/
theorem media_reason_last_category_wins (settings : ModerationSettings)
    (m : MediaModeration) :
    (processMediaMessage settings (.classified m)).status =
      (if (m.nudity.detected && settings.nudityEnabled)
          || (m.violence.detected && settings.violenceEnabled)
          || m.explicit.detected then .blocked else .approved) ∧
    (processMediaMessage settings (.classified m)).reason =
      (if m.explicit.detected then some .explicit_content
       else if m.violence.detected && settings.violenceEnabled then some .violence
       else if m.nudity.detected && settings.nudityEnabled then some .nudity
       else none) ∧
    (processMediaMessage settings (.classified m)).contentModeration = some m :=
  mediaVerdict_spec settings m

/-! ## Claim C5 -/

/-- C5 is false as stated: an image whose nudity likelihood is LIKELY gets
adapter confidence 0.7 — not exceeding the claimed 0.8 block threshold — yet
with `nudityEnabled = true` the verdict is blocked, because blocking is
driven by the adapter's `detected` boolean (LIKELY or VERY_LIKELY), not by a
0.8 confidence comparison. -/
theorem image_likely_blocks_below_claimed_threshold_cx :
    ((moderateImage { adult := .LIKELY, violence := .VERY_UNLIKELY, racy := .VERY_UNLIKELY }).nudity.confidence
        = mkRat 7 10) ∧
    ((moderateImage { adult := .LIKELY, violence := .VERY_UNLIKELY, racy := .VERY_UNLIKELY }).nudity.confidence
        ≤ mkRat 8 10) ∧
    ((moderateImage { adult := .LIKELY, violence := .VERY_UNLIKELY, racy := .VERY_UNLIKELY }).violence.confidence
        ≤ mkRat 8 10) ∧
    ((moderateImage { adult := .LIKELY, violence := .VERY_UNLIKELY, racy := .VERY_UNLIKELY }).explicit.confidence
        ≤ mkRat 8 10) ∧
    (processMediaMessage
      { hateSpeechEnabled := true, nudityEnabled := true, violenceEnabled := true,
        autoBlock := true, customBlockedWords := [], customAllowedWords := [] }
      (.classified (moderateImage
        { adult := .LIKELY, violence := .VERY_UNLIKELY, racy := .VERY_UNLIKELY }))).status
        = .blocked ∧
    (processMediaMessage
      { hateSpeechEnabled := true, nudityEnabled := true, violenceEnabled := true,
        autoBlock := true, customBlockedWords := [], customAllowedWords := [] }
      (.classified (moderateImage
        { adult := .LIKELY, violence := .VERY_UNLIKELY, racy := .VERY_UNLIKELY }))).status
        ≠ .approved := by
  refine ⟨by decide, by decide, by decide, by decide, by decide, by decide⟩

/-- C5 (amended): for an image whose classification succeeds, a category
causes a block exactly when its adapter `detected` flag is set and its
toggle is enabled (explicit is always checked); `detected` is equivalent to
the adapter confidence being at least 0.7, so the effective per-category
block threshold is 0.7 (inclusive), not 0.8 — and the verdict is approved
exactly when no category so qualifies. -/
theorem image_approved_iff_no_detected_category (settings : ModerationSettings)
    (ss : SafeSearch) :
    ((processMediaMessage settings (.classified (moderateImage ss))).status = .approved ↔
      ¬((likelyDetected ss.adult && settings.nudityEnabled) = true
        ∨ (likelyDetected ss.violence && settings.violenceEnabled) = true
        ∨ likelyDetected ss.racy = true)) ∧
    ((moderateImage ss).nudity.detected = true ↔
      mkRat 7 10 ≤ (moderateImage ss).nudity.confidence) ∧
    ((moderateImage ss).violence.detected = true ↔
      mkRat 7 10 ≤ (moderateImage ss).violence.confidence) ∧
    ((moderateImage ss).explicit.detected = true ↔
      mkRat 7 10 ≤ (moderateImage ss).explicit.confidence) := by
  refine ⟨?_, likelyDetected_iff_conf ss.adult, likelyDetected_iff_conf ss.violence,
    likelyDetected_iff_conf ss.racy⟩
  have hspec := (mediaVerdict_spec settings (moderateImage ss)).1
  show (mediaVerdict settings (moderateImage ss)).status = .approved ↔ _
  rw [hspec]
  unfold moderateImage
  cases hN : likelyDetected ss.adult && settings.nudityEnabled <;>
    cases hV : likelyDetected ss.violence && settings.violenceEnabled <;>
      cases hE : likelyDetected ss.racy <;>
        simp [hN, hV, hE]

/-! ## Store lemmas -/

/-- At most one stored row per provider message id. -/
def Store.atMostOnePerId (st : Store) : Prop :=
  ∀ q : String, (st.messages.countP fun m => m.whatsappMessageId = q) ≤ 1

/-- Counting rows by id is invariant under an update that keeps ids. -/
theorem countP_map_keep_id (l : List StoredMessage) (g : StoredMessage → StoredMessage)
    (hg : ∀ m, (g m).whatsappMessageId = m.whatsappMessageId) (q : String) :
    ((l.map g).countP fun m => m.whatsappMessageId = q) =
      l.countP fun m => m.whatsappMessageId = q := by
  induction l with
  | nil => rfl
  | cons x xs ih => simp [List.countP_cons, hg, ih]

/-- A store with no row for an id counts zero rows for it. -/
theorem countP_eq_zero_of_hasId_false (st : Store) (q : String)
    (h : st.hasId q = false) :
    (st.messages.countP fun m => m.whatsappMessageId = q) = 0 := by
  unfold Store.hasId at h
  rw [List.countP_eq_zero]
  intro a ha
  rw [List.any_eq_false] at h
  exact h a ha

/-- `setDelivered` keeps every row's id. -/
theorem setDelivered_messages (st : Store) (id : String) :
    (st.setDelivered id).messages =
      st.messages.map fun m =>
        if m.whatsappMessageId = id then { m with metadataStatus := "delivered" } else m :=
  rfl

/-- `setResponseSent` keeps every row's id. -/
theorem setResponseSent_messages (st : Store) (id : String) :
    (st.setResponseSent id).messages =
      st.messages.map fun m =>
        if m.whatsappMessageId = id then { m with responseSent := true } else m :=
  rfl

/-- The two in-place updates of the pipeline preserve the uniqueness
invariant. -/
theorem atMostOnePerId_updates (st : Store) (id : String)
    (h : st.atMostOnePerId) :
    (st.setDelivered id).atMostOnePerId ∧ (st.setResponseSent id).atMostOnePerId := by
  constructor
  · intro q
    show ((st.messages.map fun m =>
        if m.whatsappMessageId = id then { m with metadataStatus := "delivered" }
        else m).countP fun m => m.whatsappMessageId = q) ≤ 1
    rw [countP_map_keep_id]
    · exact h q
    · intro m
      by_cases hm : m.whatsappMessageId = id <;> simp [hm]
  · intro q
    show ((st.messages.map fun m =>
        if m.whatsappMessageId = id then { m with responseSent := true }
        else m).countP fun m => m.whatsappMessageId = q) ≤ 1
    rw [countP_map_keep_id]
    · exact h q
    · intro m
      by_cases hm : m.whatsappMessageId = id <;> simp [hm]

/-- Saving a fresh row keeps the uniqueness invariant. -/
theorem atMostOnePerId_saveNew (st : Store) (row : StoredMessage) (st1 : Store)
    (h : st.saveNew row = some st1) (hinv : st.atMostOnePerId) :
    st1.atMostOnePerId ∧ st1 = { messages := st.messages ++ [row] } ∧
      st.hasId row.whatsappMessageId = false := by
  unfold Store.saveNew at h
  by_cases hid : st.hasId row.whatsappMessageId
  · rw [if_pos hid] at h
    exact absurd h (by simp)
  · rw [if_neg hid] at h
    have hst1 : st1 = { messages := st.messages ++ [row] } := by
      exact (Option.some_injective _ h).symm
    refine ⟨?_, hst1, by simpa using hid⟩
    intro q
    rw [hst1]
    show ((st.messages ++ [row]).countP fun m => m.whatsappMessageId = q) ≤ 1
    rw [List.countP_append]
    by_cases hq : q = row.whatsappMessageId
    · rw [hq, countP_eq_zero_of_hasId_false st row.whatsappMessageId (by simpa using hid)]
      simp [List.countP_cons]
    · have : ([row].countP fun m => m.whatsappMessageId = q) = 0 := by
        simp [List.countP_cons]
        intro hc
        exact absurd hc.symm hq
      rw [this]
      simpa using hinv q

/-- The final store of one pipeline run, by branch. -/
theorem processIncomingMessage_store (st : Store) (settings : ModerationSettings)
    (msgId : String) (input : KindInput) (sendOk : Bool) :
    (processIncomingMessage st settings msgId input sendOk).store = st ∨
    ∃ st1 : Store,
      st.saveNew
        { whatsappMessageId := msgId, moderation := moderationFor settings input,
          metadataStatus := "received", responseSent := false } = some st1 ∧
      ((processIncomingMessage st settings msgId input sendOk).store = st1 ∨
       (processIncomingMessage st settings msgId input sendOk).store = st1.setDelivered msgId ∨
       (processIncomingMessage st settings msgId input sendOk).store = st1.setResponseSent msgId) := by
  unfold processIncomingMessage
  cases h : st.saveNew
      { whatsappMessageId := msgId, moderation := moderationFor settings input,
        metadataStatus := "received", responseSent := false } with
  | none => left; simp [h]
  | some st1 =>
    right
    refine ⟨st1, rfl, ?_⟩
    by_cases hb : (moderationFor settings input).status = .blocked
    · by_cases hab : settings.autoBlock
      · by_cases hsend : sendOk
        · right; right; simp [h, hb, hab, hsend]
        · left; simp [h, hb, hab, hsend]
      · left; simp [h, hb, hab]
    · right; left; simp [h, hb]

/-! ## Claim C8 -/

/-- C8: processing an inbound message preserves the store's at-most-one-row-
per-`whatsappMessageId` invariant (the mongoose unique index makes the save
of a duplicate id fail, and the caught failure leaves the store untouched);
in particular re-delivering an already-stored provider message id changes
nothing — no second stored message and no second verdict. -/
theorem store_at_most_one_message_per_id (st : Store) (settings : ModerationSettings)
    (msgId : String) (input : KindInput) (sendOk : Bool)
    (hinv : st.atMostOnePerId) :
    (processIncomingMessage st settings msgId input sendOk).store.atMostOnePerId ∧
    (st.hasId msgId = true →
      (processIncomingMessage st settings msgId input sendOk).store = st) := by
  have hdup : st.hasId msgId = true →
      (processIncomingMessage st settings msgId input sendOk).store = st := by
    intro hid
    unfold processIncomingMessage Store.saveNew
    simp [hid]
  refine ⟨?_, hdup⟩
  rcases processIncomingMessage_store st settings msgId input sendOk with h | ⟨st1, hsave, hcase⟩
  · rw [h]; exact hinv
  · have hst1 := atMostOnePerId_saveNew st _ st1 hsave hinv
    rcases hcase with h | h | h <;> rw [h]
    · exact hst1.1
    · exact (atMostOnePerId_updates st1 msgId hst1.1).1
    · exact (atMostOnePerId_updates st1 msgId hst1.1).2

/-- Witness for C8: with a one-row store already holding id "m1",
re-delivering a message with id "m1" leaves the store exactly as it was. -/
theorem store_at_most_one_message_per_id_witness :
    (Store.atMostOnePerId
      { messages := [{ whatsappMessageId := "m1",
                       moderation := simpleResult .approved none,
                       metadataStatus := "delivered", responseSent := false }] }) ∧
    (processIncomingMessage
      { messages := [{ whatsappMessageId := "m1",
                       moderation := simpleResult .approved none,
                       metadataStatus := "delivered", responseSent := false }] }
      { hateSpeechEnabled := true, nudityEnabled := true, violenceEnabled := true,
        autoBlock := true, customBlockedWords := [], customAllowedWords := [] }
      "m1" .document true).store =
      { messages := [{ whatsappMessageId := "m1",
                       moderation := simpleResult .approved none,
                       metadataStatus := "delivered", responseSent := false }] } := by
  have hinv : Store.atMostOnePerId
      { messages := [{ whatsappMessageId := "m1",
                       moderation := simpleResult .approved none,
                       metadataStatus := "delivered", responseSent := false }] } := by
    intro q
    simp only [List.countP_cons, List.countP_nil]
    split <;> simp
  exact ⟨hinv,
    (store_at_most_one_message_per_id _ _ "m1" .document true hinv).2 (by decide)⟩

/-- A mapped store update that keeps id and moderation keeps a row's
identity and verdict visible. -/
theorem exists_row_map (l : List StoredMessage) (g : StoredMessage → StoredMessage)
    (hgid : ∀ m, (g m).whatsappMessageId = m.whatsappMessageId)
    (hgmod : ∀ m, (g m).moderation = m.moderation)
    (row : StoredMessage) (hrow : row ∈ l) :
    ∃ r ∈ l.map g, r.whatsappMessageId = row.whatsappMessageId ∧
      r.moderation = row.moderation :=
  ⟨g row, List.mem_map_of_mem g hrow, hgid row, hgmod row⟩

/-- Processing a message with a fresh id persists a row carrying exactly the
computed verdict. -/
theorem processIncomingMessage_persists (st : Store) (settings : ModerationSettings)
    (msgId : String) (input : KindInput) (sendOk : Bool)
    (hfresh : st.hasId msgId = false) :
    ∃ r ∈ (processIncomingMessage st settings msgId input sendOk).store.messages,
      r.whatsappMessageId = msgId ∧ r.moderation = moderationFor settings input := by
  have hmem : ({ whatsappMessageId := msgId, moderation := moderationFor settings input,
                 metadataStatus := "received", responseSent := false } : StoredMessage) ∈
      st.messages ++
        [{ whatsappMessageId := msgId, moderation := moderationFor settings input,
           metadataStatus := "received", responseSent := false }] :=
    List.mem_append_right _ (List.mem_singleton_self _)
  have hsave : st.saveNew
      { whatsappMessageId := msgId, moderation := moderationFor settings input,
        metadataStatus := "received", responseSent := false } =
      some { messages := st.messages ++
        [{ whatsappMessageId := msgId, moderation := moderationFor settings input,
           metadataStatus := "received", responseSent := false }] } := by
    unfold Store.saveNew
    simp [hfresh]
  unfold processIncomingMessage
  simp only [hsave]
  by_cases hb : (moderationFor settings input).status = .blocked
  · by_cases hab : settings.autoBlock
    · by_cases hsend : sendOk
      · simp only [hb, hab, hsend, if_true]
        exact exists_row_map _ _
          (by intro m; by_cases hm : m.whatsappMessageId = msgId <;> simp [hm])
          (by intro m; by_cases hm : m.whatsappMessageId = msgId <;> simp [hm])
          _ hmem
      · simp only [hb, hab, if_true]
        rw [if_neg hsend]
        exact ⟨_, hmem, rfl, rfl⟩
    · simp only [hb, if_true]
      rw [if_neg hab]
      exact ⟨_, hmem, rfl, rfl⟩
  · rw [if_neg hb]
    exact exists_row_map _ _
      (by intro m; by_cases hm : m.whatsappMessageId = msgId <;> simp [hm])
      (by intro m; by_cases hm : m.whatsappMessageId = msgId <;> simp [hm])
      _ hmem

/-- A verdict other than `blocked` never triggers the auto-reply
(`handleBlockedMessage` is only invoked on `blocked`). -/
theorem processIncomingMessage_no_reply_of_not_blocked (st : Store)
    (settings : ModerationSettings) (msgId : String) (input : KindInput) (sendOk : Bool)
    (h : (moderationFor settings input).status ≠ .blocked) :
    (processIncomingMessage st settings msgId input sendOk).autoReplyAttempted = false := by
  unfold processIncomingMessage
  cases hs : st.saveNew
      { whatsappMessageId := msgId, moderation := moderationFor settings input,
        metadataStatus := "received", responseSent := false } with
  | none => simp [hs]
  | some st1 => simp [hs, h]

/-! ## Claim C6 -/

/-- C6: an audio message whose media download or transcription fails gets
verdict status `error` — never `approved` and never `blocked`; the result is
independent of the moderation settings (so the transcribed-text policy is
not evaluated), no auto-reply is attempted, and the message record is still
persisted with the `error` verdict. -/
theorem audio_failure_yields_error (st : Store)
    (settings settings2 : ModerationSettings) (msgId : String) (step : AudioStep)
    (sendOk : Bool)
    (hfail : step = .downloadFailed ∨ step = .transcriptionFailed)
    (hfresh : st.hasId msgId = false) :
    (processAudioMessage settings step).status = .error ∧
    (processAudioMessage settings step).status ≠ .approved ∧
    (processAudioMessage settings step).status ≠ .blocked ∧
    processAudioMessage settings step = processAudioMessage settings2 step ∧
    (processIncomingMessage st settings msgId (.audio step) sendOk).autoReplyAttempted
      = false ∧
    ∃ r ∈ (processIncomingMessage st settings msgId (.audio step) sendOk).store.messages,
      r.whatsappMessageId = msgId ∧ r.moderation.status = .error := by
  have hpersist := processIncomingMessage_persists st settings msgId (.audio step) sendOk hfresh
  rcases hfail with h | h <;> subst h <;>
    refine ⟨rfl, fun h => Status.noConfusion h, fun h => Status.noConfusion h, rfl,
      processIncomingMessage_no_reply_of_not_blocked _ _ _ _ _
        (fun h => Status.noConfusion h), ?_⟩ <;>
  · obtain ⟨r, hr, hid, hmod⟩ := hpersist
    exact ⟨r, hr, hid, by rw [hmod]; rfl⟩

/-- Witness for C6: a transcription failure on an empty store yields an
`error` verdict, no auto-reply, and a persisted record. -/
theorem audio_failure_yields_error_witness :
    (processAudioMessage
      { hateSpeechEnabled := true, nudityEnabled := true, violenceEnabled := true,
        autoBlock := true, customBlockedWords := [], customAllowedWords := [] }
      .transcriptionFailed).status = .error ∧
    (processIncomingMessage { messages := [] }
      { hateSpeechEnabled := true, nudityEnabled := true, violenceEnabled := true,
        autoBlock := true, customBlockedWords := [], customAllowedWords := [] }
      "m1" (.audio .transcriptionFailed) true).autoReplyAttempted = false ∧
    ∃ r ∈ (processIncomingMessage { messages := [] }
      { hateSpeechEnabled := true, nudityEnabled := true, violenceEnabled := true,
        autoBlock := true, customBlockedWords := [], customAllowedWords := [] }
      "m1" (.audio .transcriptionFailed) true).store.messages,
      r.whatsappMessageId = "m1" ∧ r.moderation.status = .error := by
  have h := audio_failure_yields_error { messages := [] }
    { hateSpeechEnabled := true, nudityEnabled := true, violenceEnabled := true,
      autoBlock := true, customBlockedWords := [], customAllowedWords := [] }
    { hateSpeechEnabled := false, nudityEnabled := true, violenceEnabled := true,
      autoBlock := true, customBlockedWords := [], customAllowedWords := [] }
    "m1" .transcriptionFailed true (Or.inr rfl) (by decide)
  exact ⟨h.1, h.2.2.2.2.1, h.2.2.2.2.2⟩

/-! ## Claim C7 -/

/-- C7: a document message always yields verdict `approved` with no signals
recorded — the kind dispatch of `processIncomingMessage` has no branch for
`document`, so the default `\x7b status: 'approved' \x7d` stands, no
classifier runs, no auto-reply is attempted, and the record is persisted
with the approved verdict. -/
theorem document_always_approved (st : Store) (settings : ModerationSettings)
    (msgId : String) (sendOk : Bool) (hfresh : st.hasId msgId = false) :
    moderationFor settings .document = simpleResult .approved none ∧
    (processIncomingMessage st settings msgId .document sendOk).autoReplyAttempted
      = false ∧
    ∃ r ∈ (processIncomingMessage st settings msgId .document sendOk).store.messages,
      r.whatsappMessageId = msgId ∧ r.moderation = simpleResult .approved none := by
  refine ⟨rfl, processIncomingMessage_no_reply_of_not_blocked _ _ _ _ _
    (fun h => Status.noConfusion h), ?_⟩
  obtain ⟨r, hr, hid, hmod⟩ :=
    processIncomingMessage_persists st settings msgId .document sendOk hfresh
  exact ⟨r, hr, hid, hmod⟩

/-- Witness for C7: a document message on an empty store with a fully
restrictive configuration is approved and persisted. -/
theorem document_always_approved_witness :
    moderationFor
      { hateSpeechEnabled := true, nudityEnabled := true, violenceEnabled := true,
        autoBlock := true, customBlockedWords := ["bad"], customAllowedWords := [] }
      .document = simpleResult .approved none ∧
    (processIncomingMessage { messages := [] }
      { hateSpeechEnabled := true, nudityEnabled := true, violenceEnabled := true,
        autoBlock := true, customBlockedWords := ["bad"], customAllowedWords := [] }
      "m7" .document true).autoReplyAttempted = false ∧
    ∃ r ∈ (processIncomingMessage { messages := [] }
      { hateSpeechEnabled := true, nudityEnabled := true, violenceEnabled := true,
        autoBlock := true, customBlockedWords := ["bad"], customAllowedWords := [] }
      "m7" .document true).store.messages,
      r.whatsappMessageId = "m7" ∧ r.moderation = simpleResult .approved none :=
  document_always_approved { messages := [] }
    { hateSpeechEnabled := true, nudityEnabled := true, violenceEnabled := true,
      autoBlock := true, customBlockedWords := ["bad"], customAllowedWords := [] }
    "m7" true (by decide)

/-! ## Claim C9 -/

/-- C9 is false as stated: a term already decided (status `approved`) is NOT
left unchanged by a subsequent review — neither the `review_word` handler
nor the `NewWord` methods check the current status, so a `reject` decision
overwrites the status and the user-decision fields. -/
theorem review_decided_term_changed_cx :
    (reviewWord .reject 5 "changed"
      { word := "slur", status := .approved, markedAsHateSpeech := true,
        decisionDate := some 1, decisionReason := some "initial" }).status
      = .rejected ∧
    (reviewWord .reject 5 "changed"
      { word := "slur", status := .approved, markedAsHateSpeech := true,
        decisionDate := some 1, decisionReason := some "initial" }).status
      ≠ .approved ∧
    (reviewWord .reject 5 "changed"
      { word := "slur", status := .approved, markedAsHateSpeech := true,
        decisionDate := some 1, decisionReason := some "initial" }).markedAsHateSpeech
      = false ∧
    (reviewWord .reject 5 "changed"
      { word := "slur", status := .approved, markedAsHateSpeech := true,
        decisionDate := some 1, decisionReason := some "initial" }).decisionReason
      ≠ some "initial" := by
  refine ⟨rfl, by decide, rfl, by decide⟩

/-- C9 (amended): an owner decision on a candidate term is applied
unconditionally, whatever the current review status: `approve`, `reject` and
`ignore` overwrite the status, the hate-speech mark and the decision fields
according to the new action (there is no idempotence guard for
already-decided terms). -/
theorem review_overwrites_previous_decision (w : NewWordRec) (now : Nat)
    (reason : String) :
    reviewWord .approve now reason w = markAsHateSpeech now reason w ∧
    reviewWord .reject now reason w = rejectWord now reason w ∧
    reviewWord .ignore now reason w = ignoreWord now reason w ∧
    (reviewWord .approve now reason w).status = .approved ∧
    (reviewWord .approve now reason w).markedAsHateSpeech = true ∧
    (reviewWord .reject now reason w).status = .rejected ∧
    (reviewWord .reject now reason w).markedAsHateSpeech = false ∧
    (reviewWord .ignore now reason w).status = .ignored ∧
    (reviewWord .ignore now reason w).markedAsHateSpeech = false ∧
    (reviewWord .approve now reason w).decisionDate = some now ∧
    (reviewWord .approve now reason w).decisionReason = some reason :=
  ⟨rfl, rfl, rfl, rfl, rfl, rfl, rfl, rfl, rfl, rfl, rfl⟩

/-! ## Claim C10 -/

/-- C10 is false as stated: a video whose media download succeeds but whose
moderation-job submission fails gets verdict `error`, not `approved`. -/
theorem video_submit_failure_not_approved_cx :
    (processMediaMessage
      { hateSpeechEnabled := true, nudityEnabled := true, violenceEnabled := true,
        autoBlock := true, customBlockedWords := [], customAllowedWords := [] }
      (videoStep true false)).status = .error ∧
    (processMediaMessage
      { hateSpeechEnabled := true, nudityEnabled := true, violenceEnabled := true,
        autoBlock := true, customBlockedWords := [], customAllowedWords := [] }
      (videoStep true false)).status ≠ .approved := by
  refine ⟨by decide, by decide⟩

/-- C10 (amended): the video polling step returns a fixed all-clear result
(every category not detected, confidence 0.1), so a video whose download AND
moderation-job submission succeed is always approved, and no video message
is ever blocked, whatever the configuration and adapter outcomes. -/
theorem video_success_approved_never_blocked (settings : ModerationSettings) :
    moderateVideo true = some pollVideoResults ∧
    pollVideoResults.nudity.detected = false ∧
    pollVideoResults.violence.detected = false ∧
    pollVideoResults.explicit.detected = false ∧
    pollVideoResults.nudity.confidence = mkRat 1 10 ∧
    (processMediaMessage settings (videoStep true true)).status = .approved ∧
    (∀ d sub : Bool, (processMediaMessage settings (videoStep d sub)).status
      ≠ .blocked) := by
  refine ⟨rfl, rfl, rfl, rfl, rfl, rfl, ?_⟩
  intro d sub
  cases d <;> cases sub <;> exact fun h => Status.noConfusion h

end Moderation
